import Mathlib

/-!
Verification of the farfetch kernel module (src/user/module/farfetch/farfetch.c)
against its natural-language specification.

The C function `farfetch` is shallowly embedded as a Lean function over an
oracle `Env` describing the replies of the external kernel services it calls
(credential check, pid/task/mm resolution, allocation, mmap lock,
get_user_pages_remote, copy_to_user/copy_from_user), together with a `Trace`
recording the observable side effects (lookups, allocations, pins, releases,
pages mapped, pages dirtied, bytes moved).  All size_t / unsigned long
arithmetic is 64-bit and modelled on Nat with explicit reduction mod 2^64 at
every operation that the C performs at that width; the signed `long` return
value is modelled as the two's-complement reinterpretation of the 64-bit
result.
-/

namespace Farfetch

/-- PAGE_SIZE on the target architecture (4096 bytes). -/
def PAGE_SIZE : Nat := 4096

/-- SIZE_MAX for a 64-bit size_t. -/
def SIZE_MAX : Nat := 2 ^ 64 - 1

/-- MAX_RW_COUNT = INT_MAX & PAGE_MASK = 0x7ffff000. -/
def MAX_RW_COUNT : Nat := 2147479552

def EPERM : Int := 1
def ESRCH : Int := 3
def EINTR : Int := 4
def ENOMEM : Int := 12
def EFAULT : Int := 14
def EINVAL : Int := 22

/-- 64-bit size_t addition. -/
def add64 (a b : Nat) : Nat := (a + b) % 2 ^ 64

/-- 64-bit size_t subtraction (two's-complement wraparound); callers pass
values below 2^64. -/
def sub64 (a b : Nat) : Nat := (2 ^ 64 + a - b) % 2 ^ 64

/-- 64-bit size_t multiplication. -/
def mul64 (a b : Nat) : Nat := (a * b) % 2 ^ 64

/-- Reinterpret a signed long as unsigned long (value of `(unsigned long)g`). -/
def toUlong (g : Int) : Nat := (g % (2 ^ 64 : Int)).toNat

/-- Reinterpret a 64-bit unsigned value as a signed long (the conversion the
C performs in `return ret ? ret : len;` where len is size_t and the return
type is long). -/
def toLong (n : Nat) : Int := if n < 2 ^ 63 then (n : Int) else (n : Int) - 2 ^ 64

/-- IS_ERR_VALUE(x): `(unsigned long)x >= (unsigned long)-MAX_ERRNO`, with
MAX_ERRNO = 4095. -/
def IS_ERR_VALUE (g : Int) : Bool := decide (2 ^ 64 - 4095 ≤ toUlong g)

/-- `page_off = target_addr & ~PAGE_MASK`, i.e. the offset of the target
address inside its page. -/
def pageOff (target_addr : Nat) : Nat := target_addr % PAGE_SIZE

/-- `len = min3(len, MAX_RW_COUNT, SIZE_MAX - page_off - PAGE_SIZE + 1)`
(farfetch.c line 36), each operation at size_t width. -/
def clampLen (target_addr len : Nat) : Nat :=
  min (min len MAX_RW_COUNT)
    (add64 (sub64 (sub64 SIZE_MAX (pageOff target_addr)) PAGE_SIZE) 1)

/-- `nr_pages = (page_off + len + PAGE_SIZE - 1) / PAGE_SIZE`
(farfetch.c line 37), computed from the clamped length. -/
def nrPages (target_addr len : Nat) : Nat :=
  add64 (add64 (pageOff target_addr) (clampLen target_addr len)) (PAGE_SIZE - 1)
    / PAGE_SIZE

/-- C1: for every target_address and length, the clamping followed by the
page-count computation yields nr_pages * PAGE_SIZE ≥ page_off + len, and
neither the sum page_off + len + PAGE_SIZE - 1 nor the product
nr_pages * PAGE_SIZE overflows the 64-bit size_t width (the modular
operations agree with exact arithmetic), for all inputs. -/
theorem C1_window_overflow_safe (target_addr len0 : Nat) :
    add64 (add64 (pageOff target_addr) (clampLen target_addr len0)) (PAGE_SIZE - 1)
      = pageOff target_addr + clampLen target_addr len0 + (PAGE_SIZE - 1) ∧
    mul64 (nrPages target_addr len0) PAGE_SIZE
      = nrPages target_addr len0 * PAGE_SIZE ∧
    pageOff target_addr + clampLen target_addr len0
      ≤ nrPages target_addr len0 * PAGE_SIZE := by
  simp only [nrPages, clampLen, pageOff, add64, sub64, mul64, PAGE_SIZE, SIZE_MAX,
    MAX_RW_COUNT]
  omega

/-- The command argument: FAR_READ, FAR_WRITE, or any other unsigned int. -/
inductive Cmd where
  | FAR_READ : Cmd
  | FAR_WRITE : Cmd
  | other : Nat → Cmd
deriving DecidableEq

/-- Oracle for the external kernel services farfetch calls.  `euid` is the
value of from_kuid_munged(current_user_ns(), task_euid(current));
`task_found` is whether find_get_pid/get_pid_task yield a live task;
`mm_found` is whether get_task_mm yields a live mm; `alloc_ok` is whether
kmalloc_array succeeds; `lock_ok` is whether mmap_read_lock_killable
returns 0; `gup n` is the long returned by get_user_pages_remote when asked
for n pages; `copy_fails i` is whether the user-space copy touching page
index i fails (copy_to_user / copy_from_user returns nonzero). -/
structure Env where
  euid : Nat
  task_found : Bool
  mm_found : Bool
  alloc_ok : Bool
  lock_ok : Bool
  gup : Nat → Int
  copy_fails : Nat → Bool

/-- State of the per-page transfer loop (farfetch.c lines 88-119):
`ret` is the error accumulator, `cursor` is `iter - addr`, `page_off` the
current in-page offset; `mapped` records the page indices passed to kmap,
`dirty` those passed to set_page_dirty_lock, `toLocal`/`toTarget` count the
bytes moved by copy_to_user / copy_from_user. -/
structure LoopSt where
  ret : Int
  cursor : Nat
  page_off : Nat
  mapped : List Nat
  dirty : List Nat
  toLocal : Nat
  toTarget : Nat
deriving DecidableEq

/-- One iteration of the loop body for page index i: compute
`to_copy = min(len - (iter - addr), PAGE_SIZE - page_off)`, run the switch
on cmd, and — only when no error was recorded — reset page_off and advance
the cursor.  A zero-length user copy cannot fault, so the copy-failure
oracle is consulted only when to_copy is nonzero. -/
def stepLoop (cmd : Cmd) (fails : Nat → Bool) (len : Nat) (i : Nat)
    (s : LoopSt) : LoopSt :=
  let to_copy := min (sub64 len s.cursor) (PAGE_SIZE - s.page_off)
  let s1 :=
    match cmd with
    | Cmd.FAR_READ =>
      if to_copy ≠ 0 ∧ fails i = true then
        { s with ret := -EFAULT, mapped := s.mapped ++ [i] }
      else
        { s with mapped := s.mapped ++ [i], toLocal := s.toLocal + to_copy }
    | Cmd.FAR_WRITE =>
      if to_copy ≠ 0 ∧ fails i = true then
        { s with ret := -EFAULT, mapped := s.mapped ++ [i] }
      else
        { s with mapped := s.mapped ++ [i], dirty := s.dirty ++ [i],
                 toTarget := s.toTarget + to_copy }
    | Cmd.other _ => { s with ret := -EINVAL }
  if s1.ret = 0 then { s1 with page_off := 0, cursor := add64 s1.cursor to_copy }
  else s1

/-- Run `count` iterations of the transfer loop starting at page index i,
stopping early when an iteration records an error (`if (ret) break;`). -/
def runLoop (cmd : Cmd) (fails : Nat → Bool) (len : Nat) :
    Nat → Nat → LoopSt → LoopSt
  | 0, _, s => s
  | count + 1, i, s =>
    let s1 := stepLoop cmd fails len i s
    if s1.ret = 0 then runLoop cmd fails len count (i + 1) s1 else s1

/-- Observable side effects of one farfetch call. `pid_lookups` counts
find_get_pid calls, `mm_gets`/`mm_puts` successful get_task_mm and mmput
calls, `allocs`/`kfrees` successful kmalloc_array and kfree calls,
`pages_pinned` the pages obtained by get_user_pages_remote, `page_puts` the
put_page calls; `mapped`, `dirty`, `toLocal`, `toTarget` come from the
transfer loop. -/
structure Trace where
  pid_lookups : Nat
  mm_gets : Nat
  mm_puts : Nat
  allocs : Nat
  kfrees : Nat
  pages_pinned : Nat
  page_puts : Nat
  mapped : List Nat
  dirty : List Nat
  toLocal : Nat
  toTarget : Nat
deriving DecidableEq

def Trace.empty : Trace := ⟨0, 0, 0, 0, 0, 0, 0, [], [], 0, 0⟩

/-- Trace of an exit path that never reached the transfer loop: only the
lookup/allocation/release counters are populated. -/
def Trace.early (pl mg mp al kf : Nat) : Trace := ⟨pl, mg, mp, al, kf, 0, 0, [], [], 0, 0⟩

/-- Result of a farfetch call: the long return value and the side-effect
trace. -/
structure FarResult where
  ret : Int
  tr : Trace
deriving DecidableEq

/-- Shallow embedding of `farfetch` (farfetch.c lines 17-127).  Control flow
mirrors the source: clamp the length and compute the page count; check the
effective uid; resolve pid → task → mm; allocate the page array; take the
mmap read lock; pin with get_user_pages_remote; on a short pin, shrink
nr_pages and recompute len at size_t width; run the transfer loop; release
every pinned page and the array; return the loop error if any, else len
converted to long. -/
def farfetch (env : Env) (cmd : Cmd) (target_pid : Int)
    (target_addr len0 : Nat) : FarResult :=
  let page_off := pageOff target_addr
  let len := clampLen target_addr len0
  let nr_pages := nrPages target_addr len0
  if env.euid ≠ 0 then
    ⟨-EPERM, Trace.empty⟩
  else if env.task_found = false then
    ⟨-ESRCH, Trace.early 1 0 0 0 0⟩
  else if env.mm_found = false then
    ⟨-ESRCH, Trace.early 1 0 0 0 0⟩
  else if env.alloc_ok = false then
    ⟨-ENOMEM, Trace.early 1 1 1 0 0⟩
  else if env.lock_ok = false then
    ⟨-EINTR, Trace.early 1 1 1 1 1⟩
  else
    let g := env.gup nr_pages
    if IS_ERR_VALUE g then
      ⟨g, Trace.early 1 1 1 1 1⟩
    else
      let k := toUlong g
      let nr2 := if k < nr_pages then k else nr_pages
      let len2 := if k < nr_pages then sub64 (mul64 k PAGE_SIZE) page_off else len
      let s := runLoop cmd env.copy_fails len2 nr2 0 ⟨0, 0, page_off, [], [], 0, 0⟩
      ⟨if s.ret ≠ 0 then s.ret else toLong len2,
       ⟨1, 1, 1, 1, 1, k, nr2, s.mapped, s.dirty, s.toLocal, s.toTarget⟩⟩

/-- The revised page count the code loops over: shrunk to the pin count when
get_user_pages_remote returned fewer pages than requested (farfetch.c
lines 82-86). -/
def pinCount (env : Env) (ta len0 : Nat) : Nat :=
  let k := toUlong (env.gup (nrPages ta len0))
  if k < nrPages ta len0 then k else nrPages ta len0

/-- The (possibly revised) clamped length: `len = nr_pages * PAGE_SIZE -
page_off` at size_t width after a short pin, the original clamped length
otherwise. -/
def revLen (env : Env) (ta len0 : Nat) : Nat :=
  let k := toUlong (env.gup (nrPages ta len0))
  if k < nrPages ta len0 then sub64 (mul64 k PAGE_SIZE) (pageOff ta)
  else clampLen ta len0

/-- The state of the transfer loop at exit, for a call that reached it. -/
def loopResult (env : Env) (cmd : Cmd) (ta len0 : Nat) : LoopSt :=
  runLoop cmd env.copy_fails (revLen env ta len0) (pinCount env ta len0) 0
    ⟨0, 0, pageOff ta, [], [], 0, 0⟩

def envAll : Env := ⟨0, true, true, true, true, fun n => (n : Int), fun _ => false⟩
def envZero : Env := ⟨0, true, true, true, true, fun _ => 0, fun _ => false⟩
def envPart : Env := ⟨0, true, true, true, true, fun _ => 2, fun _ => false⟩
def envFault : Env := ⟨0, true, true, true, true, fun _ => 2, fun i => decide (i = 1)⟩
def envNoTask : Env := ⟨0, false, true, true, true, fun _ => 0, fun _ => false⟩
def envUnpriv : Env := ⟨1, true, true, true, true, fun _ => 0, fun _ => false⟩

theorem pageOff_lt (ta : Nat) : pageOff ta < PAGE_SIZE := by
  simp only [pageOff, PAGE_SIZE]; omega

theorem clampLen_le (ta l : Nat) : clampLen ta l ≤ MAX_RW_COUNT := by
  simp only [clampLen, pageOff, add64, sub64, PAGE_SIZE, SIZE_MAX, MAX_RW_COUNT]
  omega

theorem window_ge (ta l : Nat) :
    pageOff ta + clampLen ta l ≤ nrPages ta l * PAGE_SIZE := by
  simp only [nrPages, clampLen, pageOff, add64, sub64, PAGE_SIZE, SIZE_MAX,
    MAX_RW_COUNT]
  omega

theorem window_lt (ta l : Nat) :
    nrPages ta l * PAGE_SIZE < pageOff ta + clampLen ta l + PAGE_SIZE := by
  simp only [nrPages, clampLen, pageOff, add64, sub64, PAGE_SIZE, SIZE_MAX,
    MAX_RW_COUNT]
  omega

theorem nrPages_le (ta l : Nat) : nrPages ta l ≤ 524288 := by
  simp only [nrPages, clampLen, pageOff, add64, sub64, PAGE_SIZE, SIZE_MAX,
    MAX_RW_COUNT]
  omega

theorem sub64_of_le (a b : Nat) (h : b ≤ a) (h2 : a - b < 2 ^ 64) :
    sub64 a b = a - b := by
  simp only [sub64]; omega

theorem add64_of_lt (a b : Nat) (h : a + b < 2 ^ 64) : add64 a b = a + b := by
  simp only [add64]; omega

/-- A run of the loop with a valid command and no user-copy faults records no
error. -/
theorem runLoop_ret_noFail (cmd : Cmd) (fails : Nat → Bool) (len : Nat)
    (hcmd : cmd = Cmd.FAR_READ ∨ cmd = Cmd.FAR_WRITE)
    (hf : ∀ j, fails j = false) :
    ∀ count i s, s.ret = 0 → (runLoop cmd fails len count i s).ret = 0 := by
  intro count
  induction count with
  | zero => intro i s h; simpa [runLoop] using h
  | succ n ih =>
    intro i s h
    rcases hcmd with hc | hc <;> subst hc <;>
      simp only [runLoop, stepLoop, hf, Bool.false_eq_true, and_false, if_false,
        reduceIte, h, ite_true] <;>
      exact ih (i + 1) _ rfl

/-- If the loop exits with ret = 0 then every iteration advanced, and the
final cursor is min(len, start_cursor + count * PAGE_SIZE - start_page_off). -/
theorem runLoop_cursor (cmd : Cmd) (fails : Nat → Bool) (len : Nat)
    (hlen : len < 2 ^ 64) :
    ∀ count i s, s.cursor ≤ len → s.page_off < PAGE_SIZE →
      (runLoop cmd fails len count i s).ret = 0 →
      (runLoop cmd fails len count i s).cursor
        = min len (s.cursor + (count * PAGE_SIZE - s.page_off)) := by
  intro count
  induction count with
  | zero =>
    intro i s hc hp hr
    simp only [runLoop]
    simp only [PAGE_SIZE] at hp ⊢
    omega
  | succ n ih =>
    intro i s hc hp hr
    have hsub : sub64 len s.cursor = len - s.cursor := by
      simp only [sub64]; omega
    rcases cmd with _ | _ | v
    · by_cases hfi : (min (sub64 len s.cursor) (PAGE_SIZE - s.page_off) ≠ 0
        ∧ fails i = true)
      · simp only [runLoop, stepLoop, if_pos hfi] at hr ⊢
        simp only [EFAULT] at hr ⊢
        norm_num at hr
      · by_cases h0 : s.ret = 0
        · simp only [runLoop, stepLoop, if_neg hfi, h0, ite_true, reduceIte] at hr ⊢
          have hadv : add64 s.cursor (min (sub64 len s.cursor)
              (PAGE_SIZE - s.page_off)) = s.cursor + min (sub64 len s.cursor)
              (PAGE_SIZE - s.page_off) := by
            simp only [add64, hsub]; omega
          rw [hadv] at hr ⊢
          rw [ih (i + 1) _ (by simp only [hsub]; omega) (by simp [PAGE_SIZE]) hr]
          simp only [hsub, PAGE_SIZE] at hp ⊢
          omega
        · simp only [runLoop, stepLoop, if_neg hfi, h0, ite_false, reduceIte] at hr ⊢
    · by_cases hfi : (min (sub64 len s.cursor) (PAGE_SIZE - s.page_off) ≠ 0
        ∧ fails i = true)
      · simp only [runLoop, stepLoop, if_pos hfi] at hr ⊢
        simp only [EFAULT] at hr ⊢
        norm_num at hr
      · by_cases h0 : s.ret = 0
        · simp only [runLoop, stepLoop, if_neg hfi, h0, ite_true, reduceIte] at hr ⊢
          have hadv : add64 s.cursor (min (sub64 len s.cursor)
              (PAGE_SIZE - s.page_off)) = s.cursor + min (sub64 len s.cursor)
              (PAGE_SIZE - s.page_off) := by
            simp only [add64, hsub]; omega
          rw [hadv] at hr ⊢
          rw [ih (i + 1) _ (by simp only [hsub]; omega) (by simp [PAGE_SIZE]) hr]
          simp only [hsub, PAGE_SIZE] at hp ⊢
          omega
        · simp only [runLoop, stepLoop, if_neg hfi, h0, ite_false, reduceIte] at hr ⊢
    · simp only [runLoop, stepLoop, EINVAL] at hr ⊢
      norm_num at hr

/-- Bytes moved by the user copies track the cursor exactly, and the cursor
never passes len. -/
theorem runLoop_bytes (cmd : Cmd) (fails : Nat → Bool) (len : Nat)
    (hlen : len < 2 ^ 64) :
    ∀ count i s, s.ret = 0 → s.cursor ≤ len →
      (runLoop cmd fails len count i s).toLocal
          + (runLoop cmd fails len count i s).toTarget + s.cursor
        = s.toLocal + s.toTarget + (runLoop cmd fails len count i s).cursor ∧
      (runLoop cmd fails len count i s).cursor ≤ len := by
  intro count
  induction count with
  | zero =>
    intro i s h0 hc
    simp only [runLoop]
    exact ⟨trivial, hc⟩
  | succ n ih =>
    intro i s h0 hc
    have hsub : sub64 len s.cursor = len - s.cursor := by
      simp only [sub64]; omega
    have hadv : add64 s.cursor (min (sub64 len s.cursor)
        (PAGE_SIZE - s.page_off)) = s.cursor + min (sub64 len s.cursor)
        (PAGE_SIZE - s.page_off) := by
      simp only [add64, hsub]; omega
    rcases cmd with _ | _ | v
    · by_cases hfi : (min (sub64 len s.cursor) (PAGE_SIZE - s.page_off) ≠ 0
        ∧ fails i = true)
      · simp only [runLoop, stepLoop, if_pos hfi, EFAULT]
        norm_num
        exact hc
      · simp only [runLoop, stepLoop, if_neg hfi, h0, ite_true, reduceIte, hadv]
        have hrec := ih (i + 1)
          ⟨0, s.cursor + min (sub64 len s.cursor) (PAGE_SIZE - s.page_off), 0,
            s.mapped ++ [i], s.dirty,
            s.toLocal + min (sub64 len s.cursor) (PAGE_SIZE - s.page_off),
            s.toTarget⟩ rfl (by simp only [hsub]; omega)
        simp only at hrec
        omega
    · by_cases hfi : (min (sub64 len s.cursor) (PAGE_SIZE - s.page_off) ≠ 0
        ∧ fails i = true)
      · simp only [runLoop, stepLoop, if_pos hfi, EFAULT]
        norm_num
        exact hc
      · simp only [runLoop, stepLoop, if_neg hfi, h0, ite_true, reduceIte, hadv]
        have hrec := ih (i + 1)
          ⟨0, s.cursor + min (sub64 len s.cursor) (PAGE_SIZE - s.page_off), 0,
            s.mapped ++ [i], s.dirty ++ [i], s.toLocal,
            s.toTarget + min (sub64 len s.cursor) (PAGE_SIZE - s.page_off)⟩ rfl
          (by simp only [hsub]; omega)
        simp only at hrec
        omega
    · simp only [runLoop, stepLoop, EINVAL]
      norm_num
      exact hc

/-- Every page index passed to kmap lies in [i, i + count). -/
theorem runLoop_mapped (cmd : Cmd) (fails : Nat → Bool) (len : Nat) :
    ∀ count i s j, j ∈ (runLoop cmd fails len count i s).mapped →
      j ∈ s.mapped ∨ (i ≤ j ∧ j < i + count) := by
  intro count
  induction count with
  | zero =>
    intro i s j hj
    simp only [runLoop] at hj
    exact Or.inl hj
  | succ n ih =>
    intro i s j hj
    rcases cmd with _ | _ | v
    · by_cases hfi : (min (sub64 len s.cursor) (PAGE_SIZE - s.page_off) ≠ 0
        ∧ fails i = true)
      · simp only [runLoop, stepLoop, if_pos hfi, EFAULT] at hj
        norm_num at hj
        rcases hj with hj | hj
        · exact Or.inl hj
        · omega
      · by_cases h0 : s.ret = 0
        · simp only [runLoop, stepLoop, if_neg hfi, h0, ite_true, reduceIte] at hj
          rcases ih (i + 1) _ j hj with hj2 | hj2
          · simp only [List.mem_append, List.mem_singleton] at hj2
            rcases hj2 with hj2 | hj2
            · exact Or.inl hj2
            · omega
          · omega
        · simp only [runLoop, stepLoop, if_neg hfi, h0, ite_false, reduceIte] at hj
          simp only [List.mem_append, List.mem_singleton] at hj
          rcases hj with hj | hj
          · exact Or.inl hj
          · omega
    · by_cases hfi : (min (sub64 len s.cursor) (PAGE_SIZE - s.page_off) ≠ 0
        ∧ fails i = true)
      · simp only [runLoop, stepLoop, if_pos hfi, EFAULT] at hj
        norm_num at hj
        rcases hj with hj | hj
        · exact Or.inl hj
        · omega
      · by_cases h0 : s.ret = 0
        · simp only [runLoop, stepLoop, if_neg hfi, h0, ite_true, reduceIte] at hj
          rcases ih (i + 1) _ j hj with hj2 | hj2
          · simp only [List.mem_append, List.mem_singleton] at hj2
            rcases hj2 with hj2 | hj2
            · exact Or.inl hj2
            · omega
          · omega
        · simp only [runLoop, stepLoop, if_neg hfi, h0, ite_false, reduceIte] at hj
          simp only [List.mem_append, List.mem_singleton] at hj
          rcases hj with hj | hj
          · exact Or.inl hj
          · omega
    · simp only [runLoop, stepLoop, EINVAL] at hj
      norm_num at hj
      exact Or.inl hj

/-- An invalid command makes the very first loop iteration record -EINVAL and
break, leaving everything else in the loop state untouched. -/
theorem runLoop_other (v : Nat) (fails : Nat → Bool) (len : Nat)
    (count i : Nat) (s : LoopSt) (h0 : s.ret = 0) (hc : 1 ≤ count) :
    runLoop (Cmd.other v) fails len count i s
      = ⟨-EINVAL, s.cursor, s.page_off, s.mapped, s.dirty, s.toLocal,
         s.toTarget⟩ := by
  rcases count with _ | n
  · omega
  · simp only [runLoop, stepLoop, EINVAL]
    norm_num

/-- A call that passes the privilege check, resolution, allocation, locking
and pinning reaches the transfer loop, and its result is assembled from the
loop state, the pin count and the (possibly revised) length. -/
theorem farfetch_success_path (env : Env) (cmd : Cmd) (pid : Int)
    (ta len0 : Nat) (hpriv : env.euid = 0) (htask : env.task_found = true)
    (hmmf : env.mm_found = true) (halloc : env.alloc_ok = true)
    (hlock : env.lock_ok = true)
    (herr : IS_ERR_VALUE (env.gup (nrPages ta len0)) = false) :
    farfetch env cmd pid ta len0 =
      ⟨if (loopResult env cmd ta len0).ret ≠ 0 then (loopResult env cmd ta len0).ret
        else toLong (revLen env ta len0),
       ⟨1, 1, 1, 1, 1, toUlong (env.gup (nrPages ta len0)),
        pinCount env ta len0, (loopResult env cmd ta len0).mapped,
        (loopResult env cmd ta len0).dirty, (loopResult env cmd ta len0).toLocal,
        (loopResult env cmd ta len0).toTarget⟩⟩ := by
  simp only [farfetch, loopResult, revLen, pinCount, hpriv, htask, hmmf, halloc,
    hlock, herr, ne_eq]
  norm_num

/-- C8: a caller whose munged effective uid is nonzero receives -EPERM
regardless of all other parameters, with no observable side effect: no
process lookup, no allocation, no page pinned, no page touched, no byte
moved. -/
theorem C8_unprivileged_eperm (env : Env) (cmd : Cmd) (pid : Int)
    (ta len0 : Nat) (h : env.euid ≠ 0) :
    (farfetch env cmd pid ta len0).ret = -EPERM ∧
    (farfetch env cmd pid ta len0).tr = Trace.empty := by
  simp [farfetch, h]

/-- C8 witness: a concrete unprivileged call returns -EPERM with an empty
trace. -/
theorem C8_unprivileged_eperm_witness :
    (farfetch envUnpriv Cmd.FAR_WRITE 42 12345 678).ret = -EPERM ∧
    (farfetch envUnpriv Cmd.FAR_WRITE 42 12345 678).tr = Trace.empty :=
  C8_unprivileged_eperm envUnpriv Cmd.FAR_WRITE 42 12345 678 (by decide)

/-- C9: there is an input with an invalid command — privileged caller,
resolvable target, length 0, page-aligned target address, so that the
computed page count is 0 — on which the call returns 0 (success): the
command is only validated inside the per-page loop, which runs zero
iterations. -/
theorem C9_invalid_cmd_zero_pages_success :
    (farfetch envZero (Cmd.other 7) 1 8192 0).ret = 0 ∧
    (farfetch envZero (Cmd.other 7) 1 8192 0).tr.pages_pinned = 0 ∧
    (farfetch envZero (Cmd.other 7) 1 8192 0).tr.mapped = [] := by decide

/-- C3 counterexample: a length-0 request from a privileged caller whose
target pid does not resolve returns -ESRCH, not 0, and the process lookup is
performed — refuting the claim that length 0 returns 0 with the
window/pin/transfer steps and the process lookup skipped. -/
theorem C3_counterexample :
    (farfetch envNoTask Cmd.FAR_READ 1 0 0).ret = -ESRCH ∧
    (farfetch envNoTask Cmd.FAR_READ 1 0 0).tr.pid_lookups = 1 := by decide

/-- C3 (amended): for a length-0 request from a privileged caller with a
page-aligned target address, if the process resolves with a live mm, the
allocation and the lock succeed, and get_user_pages_remote returns 0 for a
0-page request, then the call returns 0 with no page pinned, no page
touched and no byte moved; however the process lookup and the allocation
are still performed (and their failures are returned, as the counterexample
shows). -/
theorem C3_len_zero_amended (env : Env) (cmd : Cmd) (pid : Int) (ta : Nat)
    (hpriv : env.euid = 0) (htask : env.task_found = true)
    (hmmf : env.mm_found = true) (halloc : env.alloc_ok = true)
    (hlock : env.lock_ok = true) (halign : ta % PAGE_SIZE = 0)
    (hgup : env.gup 0 = 0) :
    (farfetch env cmd pid ta 0).ret = 0 ∧
    (farfetch env cmd pid ta 0).tr.pages_pinned = 0 ∧
    (farfetch env cmd pid ta 0).tr.page_puts = 0 ∧
    (farfetch env cmd pid ta 0).tr.mapped = [] ∧
    (farfetch env cmd pid ta 0).tr.toLocal = 0 ∧
    (farfetch env cmd pid ta 0).tr.toTarget = 0 ∧
    (farfetch env cmd pid ta 0).tr.pid_lookups = 1 ∧
    (farfetch env cmd pid ta 0).tr.allocs = 1 := by
  simp only [PAGE_SIZE] at halign
  have hL : clampLen ta 0 = 0 := by
    simp only [clampLen]
    omega
  have hn : nrPages ta 0 = 0 := by
    simp only [nrPages, hL, pageOff, add64, PAGE_SIZE]
    omega
  simp only [farfetch, hpriv, htask, hmmf, halloc, hlock, hn, hL, hgup]
  norm_num [IS_ERR_VALUE, toUlong, runLoop, toLong]

/-- C3 amended witness: a concrete page-aligned length-0 call on a fully
resolving environment returns 0, pins nothing, touches nothing, and still
performs the lookup and the allocation. -/
theorem C3_len_zero_amended_witness :
    (farfetch envZero Cmd.FAR_READ 1 40960 0).ret = 0 ∧
    (farfetch envZero Cmd.FAR_READ 1 40960 0).tr.pages_pinned = 0 ∧
    (farfetch envZero Cmd.FAR_READ 1 40960 0).tr.page_puts = 0 ∧
    (farfetch envZero Cmd.FAR_READ 1 40960 0).tr.mapped = [] ∧
    (farfetch envZero Cmd.FAR_READ 1 40960 0).tr.toLocal = 0 ∧
    (farfetch envZero Cmd.FAR_READ 1 40960 0).tr.toTarget = 0 ∧
    (farfetch envZero Cmd.FAR_READ 1 40960 0).tr.pid_lookups = 1 ∧
    (farfetch envZero Cmd.FAR_READ 1 40960 0).tr.allocs = 1 :=
  C3_len_zero_amended envZero Cmd.FAR_READ 1 40960 rfl rfl rfl rfl rfl
    (by decide) rfl

/-- C4 counterexample: an invalid command from a privileged caller on a
fully resolving target does return -EINVAL, but only after the process
lookup was performed and a page was pinned — refuting the claim that the
error comes before any resource is acquired. -/
theorem C4_counterexample :
    (farfetch envAll (Cmd.other 5) 1 0 4096).ret = -EINVAL ∧
    (farfetch envAll (Cmd.other 5) 1 0 4096).tr.pid_lookups = 1 ∧
    (farfetch envAll (Cmd.other 5) 1 0 4096).tr.pages_pinned = 1 := by decide

/-- C4 (amended): a request whose command is neither Read nor Write, from a
privileged caller, is rejected with -EINVAL only inside the per-page loop:
when resolution, allocation and locking succeed and pinning obtains at
least one page, the call returns -EINVAL; the process lookup and the
allocation have been performed, no page content is touched (no kmap), and
every pinned page is released; failures of the earlier steps are returned
instead of -EINVAL. -/
theorem C4_invalid_cmd_amended (env : Env) (v : Nat) (pid : Int)
    (ta len0 : Nat) (hpriv : env.euid = 0) (htask : env.task_found = true)
    (hmmf : env.mm_found = true) (halloc : env.alloc_ok = true)
    (hlock : env.lock_ok = true)
    (herr : IS_ERR_VALUE (env.gup (nrPages ta len0)) = false)
    (hk1 : 1 ≤ toUlong (env.gup (nrPages ta len0)))
    (hkn : toUlong (env.gup (nrPages ta len0)) ≤ nrPages ta len0) :
    (farfetch env (Cmd.other v) pid ta len0).ret = -EINVAL ∧
    (farfetch env (Cmd.other v) pid ta len0).tr.pid_lookups = 1 ∧
    (farfetch env (Cmd.other v) pid ta len0).tr.allocs = 1 ∧
    (farfetch env (Cmd.other v) pid ta len0).tr.mapped = [] ∧
    (farfetch env (Cmd.other v) pid ta len0).tr.page_puts
      = (farfetch env (Cmd.other v) pid ta len0).tr.pages_pinned := by
  rw [farfetch_success_path env (Cmd.other v) pid ta len0 hpriv htask hmmf
    halloc hlock herr]
  have hpc : pinCount env ta len0 = toUlong (env.gup (nrPages ta len0)) := by
    simp only [pinCount]
    split <;> omega
  have hone : 1 ≤ pinCount env ta len0 := by omega
  have hloop : loopResult env (Cmd.other v) ta len0
      = ⟨-EINVAL, 0, pageOff ta, [], [], 0, 0⟩ := by
    rw [loopResult, runLoop_other v env.copy_fails (revLen env ta len0)
      (pinCount env ta len0) 0 ⟨0, 0, pageOff ta, [], [], 0, 0⟩ rfl hone]
  rw [hloop, hpc]
  norm_num [EINVAL]

/-- C4 amended witness: a concrete invalid-command call on a fully pinning
environment returns -EINVAL after lookup, allocation and a one-page pin,
touching no page and releasing exactly the pinned page. -/
theorem C4_invalid_cmd_amended_witness :
    (farfetch envAll (Cmd.other 9) 2 4096 100).ret = -EINVAL ∧
    (farfetch envAll (Cmd.other 9) 2 4096 100).tr.pid_lookups = 1 ∧
    (farfetch envAll (Cmd.other 9) 2 4096 100).tr.allocs = 1 ∧
    (farfetch envAll (Cmd.other 9) 2 4096 100).tr.mapped = [] ∧
    (farfetch envAll (Cmd.other 9) 2 4096 100).tr.page_puts
      = (farfetch envAll (Cmd.other 9) 2 4096 100).tr.pages_pinned :=
  C4_invalid_cmd_amended envAll 9 2 4096 100 rfl rfl rfl rfl rfl (by decide)
    (by decide) (by decide)

/-- C5: on every exit path — privilege failure, failed resolution, failed
allocation, interrupted lock, pin failure, mid-loop fault and success — the
number of put_page calls equals the number of pages pinned, the number of
mmput calls equals the number of mm references taken, and the number of
kfree calls equals the number of allocations, provided
get_user_pages_remote never reports more pages than were requested. -/
theorem C5_cleanup_balanced (env : Env) (cmd : Cmd) (pid : Int)
    (ta len0 : Nat)
    (hgup : ∀ n, IS_ERR_VALUE (env.gup n) = false → toUlong (env.gup n) ≤ n) :
    (farfetch env cmd pid ta len0).tr.page_puts
      = (farfetch env cmd pid ta len0).tr.pages_pinned ∧
    (farfetch env cmd pid ta len0).tr.mm_puts
      = (farfetch env cmd pid ta len0).tr.mm_gets ∧
    (farfetch env cmd pid ta len0).tr.kfrees
      = (farfetch env cmd pid ta len0).tr.allocs := by
  by_cases hpriv : env.euid = 0
  · by_cases htask : env.task_found = true
    · by_cases hmmf : env.mm_found = true
      · by_cases halloc : env.alloc_ok = true
        · by_cases hlock : env.lock_ok = true
          · by_cases herr : IS_ERR_VALUE (env.gup (nrPages ta len0)) = false
            · rw [farfetch_success_path env cmd pid ta len0 hpriv htask hmmf
                halloc hlock herr]
              have hk := hgup (nrPages ta len0) herr
              refine ⟨?_, rfl, rfl⟩
              show pinCount env ta len0 = toUlong (env.gup (nrPages ta len0))
              simp only [pinCount]
              split <;> omega
            · have herr2 : IS_ERR_VALUE (env.gup (nrPages ta len0)) = true := by
                revert herr
                cases IS_ERR_VALUE (env.gup (nrPages ta len0)) <;> simp
              simp [farfetch, hpriv, htask, hmmf, halloc, hlock, herr2,
                Trace.early]
          · have h2 : env.lock_ok = false := by
              revert hlock; cases env.lock_ok <;> simp
            simp [farfetch, hpriv, htask, hmmf, halloc, h2, Trace.early]
        · have h2 : env.alloc_ok = false := by
            revert halloc; cases env.alloc_ok <;> simp
          simp [farfetch, hpriv, htask, hmmf, h2, Trace.early]
      · have h2 : env.mm_found = false := by
          revert hmmf; cases env.mm_found <;> simp
        simp [farfetch, hpriv, htask, h2, Trace.early]
    · have h2 : env.task_found = false := by
        revert htask; cases env.task_found <;> simp
      simp [farfetch, hpriv, h2, Trace.early]
  · simp [farfetch, hpriv, Trace.empty]

/-- C5 witness: a concrete fully pinning write call releases exactly the
pinned pages, the mm reference and the allocation. -/
theorem C5_cleanup_balanced_witness :
    (farfetch envAll Cmd.FAR_WRITE 1 100 5000).tr.page_puts
      = (farfetch envAll Cmd.FAR_WRITE 1 100 5000).tr.pages_pinned ∧
    (farfetch envAll Cmd.FAR_WRITE 1 100 5000).tr.mm_puts
      = (farfetch envAll Cmd.FAR_WRITE 1 100 5000).tr.mm_gets ∧
    (farfetch envAll Cmd.FAR_WRITE 1 100 5000).tr.kfrees
      = (farfetch envAll Cmd.FAR_WRITE 1 100 5000).tr.allocs :=
  C5_cleanup_balanced envAll Cmd.FAR_WRITE 1 100 5000
    (fun n _ => by simp only [envAll, toUlong]; omega)

/-- The size_t difference a - b read back as a signed long is the exact
integer difference whenever both operands are below 2^63. -/
theorem toLong_sub64 (a b : Nat) (ha : a < 2 ^ 63) (hb : b < 2 ^ 63) :
    toLong (sub64 a b) = (a : Int) - (b : Int) := by
  simp only [toLong, sub64]
  split <;> omega

/-- C2: whenever pinning succeeds with fewer pages than requested
(actual_count < page_count, including actual_count = 0) and the transfer
itself does not fault, the long value returned equals exactly
actual_count * PAGE_SIZE - page_off, that value never exceeds the original
clamped length, and only pages with index below actual_count are ever
mapped (no access beyond the last pinned page). -/
theorem C2_partial_pin_return (env : Env) (cmd : Cmd) (pid : Int)
    (ta len0 : Nat) (hpriv : env.euid = 0) (htask : env.task_found = true)
    (hmmf : env.mm_found = true) (halloc : env.alloc_ok = true)
    (hlock : env.lock_ok = true)
    (hcmd : cmd = Cmd.FAR_READ ∨ cmd = Cmd.FAR_WRITE)
    (hfail : ∀ j, env.copy_fails j = false)
    (herr : IS_ERR_VALUE (env.gup (nrPages ta len0)) = false)
    (hlt : toUlong (env.gup (nrPages ta len0)) < nrPages ta len0) :
    (farfetch env cmd pid ta len0).ret
        = (toUlong (env.gup (nrPages ta len0)) : Int) * (PAGE_SIZE : Int)
          - (pageOff ta : Int) ∧
    (farfetch env cmd pid ta len0).ret ≤ (clampLen ta len0 : Int) ∧
    ∀ j ∈ (farfetch env cmd pid ta len0).tr.mapped,
      j < toUlong (env.gup (nrPages ta len0)) := by
  rw [farfetch_success_path env cmd pid ta len0 hpriv htask hmmf halloc hlock
    herr]
  have hpo := pageOff_lt ta
  have hnle := nrPages_le ta len0
  have hLle := clampLen_le ta len0
  have hwlt := window_lt ta len0
  have hpc : pinCount env ta len0 = toUlong (env.gup (nrPages ta len0)) := by
    simp only [pinCount, hlt, if_pos]
  have hrl : revLen env ta len0
      = sub64 (mul64 (toUlong (env.gup (nrPages ta len0))) PAGE_SIZE)
        (pageOff ta) := by
    simp only [revLen, hlt, if_pos]
  have hret : (loopResult env cmd ta len0).ret = 0 := by
    simp only [loopResult]
    exact runLoop_ret_noFail cmd env.copy_fails _ hcmd hfail _ 0 _ rfl
  have hmul : mul64 (toUlong (env.gup (nrPages ta len0))) PAGE_SIZE
      = toUlong (env.gup (nrPages ta len0)) * PAGE_SIZE := by
    simp only [mul64, PAGE_SIZE]
    simp only [PAGE_SIZE] at hnle
    omega
  have hres : (if (loopResult env cmd ta len0).ret ≠ 0
      then (loopResult env cmd ta len0).ret
      else toLong (revLen env ta len0)) = toLong (revLen env ta len0) := by
    simp [hret]
  refine ⟨?_, ?_, ?_⟩
  · show (if (loopResult env cmd ta len0).ret ≠ 0
        then (loopResult env cmd ta len0).ret
        else toLong (revLen env ta len0)) = _
    rw [hres, hrl, hmul, toLong_sub64]
    · push_cast
      ring
    · simp only [PAGE_SIZE] at hnle ⊢
      omega
    · simp only [PAGE_SIZE] at hpo
      omega
  · show (if (loopResult env cmd ta len0).ret ≠ 0
        then (loopResult env cmd ta len0).ret
        else toLong (revLen env ta len0)) ≤ _
    rw [hres, hrl, hmul, toLong_sub64]
    · simp only [PAGE_SIZE] at hwlt ⊢
      omega
    · simp only [PAGE_SIZE] at hnle ⊢
      omega
    · simp only [PAGE_SIZE] at hpo
      omega
  · intro j hj
    have := runLoop_mapped cmd env.copy_fails (revLen env ta len0)
      (pinCount env ta len0) 0 ⟨0, 0, pageOff ta, [], [], 0, 0⟩ j hj
    simp only [List.not_mem_nil] at this
    rcases this with h | h
    · exact absurd h (by simp)
    · omega

/-- C2 witness: a concrete call asking for 3 pages of which only 2 pin
returns 2 * PAGE_SIZE - 100 bytes, below the requested 10000, touching only
pages 0 and 1. -/
theorem C2_partial_pin_return_witness :
    (farfetch envPart Cmd.FAR_READ 1 100 10000).ret
        = (toUlong (envPart.gup (nrPages 100 10000)) : Int) * (PAGE_SIZE : Int)
          - (pageOff 100 : Int) ∧
    (farfetch envPart Cmd.FAR_READ 1 100 10000).ret
        ≤ (clampLen 100 10000 : Int) ∧
    ∀ j ∈ (farfetch envPart Cmd.FAR_READ 1 100 10000).tr.mapped,
      j < toUlong (envPart.gup (nrPages 100 10000)) :=
  C2_partial_pin_return envPart Cmd.FAR_READ 1 100 10000 rfl rfl rfl rfl rfl
    (Or.inl rfl) (fun _ => rfl) (by decide) (by decide)

/-- C6: if the transfer loop stops with -EFAULT after some bytes were
already moved, the call returns the error alone — the returned long is
-EFAULT, a negative value, not the count of bytes moved — and every pinned
page is still released exactly once. -/
theorem C6_fault_error_alone (env : Env) (cmd : Cmd) (pid : Int)
    (ta len0 : Nat) (hpriv : env.euid = 0) (htask : env.task_found = true)
    (hmmf : env.mm_found = true) (halloc : env.alloc_ok = true)
    (hlock : env.lock_ok = true)
    (herr : IS_ERR_VALUE (env.gup (nrPages ta len0)) = false)
    (hkn : toUlong (env.gup (nrPages ta len0)) ≤ nrPages ta len0)
    (hret : (loopResult env cmd ta len0).ret = -EFAULT)
    (hprog : 0 < (loopResult env cmd ta len0).toLocal
        + (loopResult env cmd ta len0).toTarget) :
    (farfetch env cmd pid ta len0).ret = -EFAULT ∧
    (farfetch env cmd pid ta len0).ret < 0 ∧
    (farfetch env cmd pid ta len0).tr.page_puts
      = (farfetch env cmd pid ta len0).tr.pages_pinned := by
  rw [farfetch_success_path env cmd pid ta len0 hpriv htask hmmf halloc hlock
    herr]
  have hres : (if (loopResult env cmd ta len0).ret ≠ 0
      then (loopResult env cmd ta len0).ret
      else toLong (revLen env ta len0)) = -EFAULT := by
    rw [hret]
    norm_num [EFAULT]
  refine ⟨hres, ?_, ?_⟩
  · show (if (loopResult env cmd ta len0).ret ≠ 0
        then (loopResult env cmd ta len0).ret
        else toLong (revLen env ta len0)) < 0
    rw [hres]
    norm_num [EFAULT]
  · show pinCount env ta len0 = toUlong (env.gup (nrPages ta len0))
    simp only [pinCount]
    split <;> omega

/-- C6 witness: with 2 pages pinned and the copy on page 1 faulting after
page 0 transferred 4096 bytes, the call returns -EFAULT and releases both
pages. -/
theorem C6_fault_error_alone_witness :
    (farfetch envFault Cmd.FAR_READ 1 0 8192).ret = -EFAULT ∧
    (farfetch envFault Cmd.FAR_READ 1 0 8192).ret < 0 ∧
    (farfetch envFault Cmd.FAR_READ 1 0 8192).tr.page_puts
      = (farfetch envFault Cmd.FAR_READ 1 0 8192).tr.pages_pinned :=
  C6_fault_error_alone envFault Cmd.FAR_READ 1 0 8192 rfl rfl rfl rfl rfl
    (by decide) (by decide) (by decide) (by decide)

/-- C7: when the transfer loop exits without error — with
get_user_pages_remote honouring its contract of returning at least one page
for a nonzero request and never more than requested — the total number of
bytes copied equals the (possibly revised) clamped length exactly, and that
length is what the call returns. -/
theorem C7_success_total_bytes (env : Env) (cmd : Cmd) (pid : Int)
    (ta len0 : Nat) (hpriv : env.euid = 0) (htask : env.task_found = true)
    (hmmf : env.mm_found = true) (halloc : env.alloc_ok = true)
    (hlock : env.lock_ok = true)
    (herr : IS_ERR_VALUE (env.gup (nrPages ta len0)) = false)
    (hkn : toUlong (env.gup (nrPages ta len0)) ≤ nrPages ta len0)
    (hk1 : nrPages ta len0 ≠ 0 → 1 ≤ toUlong (env.gup (nrPages ta len0)))
    (hret : (loopResult env cmd ta len0).ret = 0) :
    (loopResult env cmd ta len0).toLocal + (loopResult env cmd ta len0).toTarget
      = revLen env ta len0 ∧
    (farfetch env cmd pid ta len0).ret = (revLen env ta len0 : Int) := by
  have hpo := pageOff_lt ta
  have hnle := nrPages_le ta len0
  have hLle := clampLen_le ta len0
  have hwge := window_ge ta len0
  have hkey : revLen env ta len0 < 2 ^ 63 ∧
      revLen env ta len0 ≤ pinCount env ta len0 * PAGE_SIZE - pageOff ta := by
    by_cases hlt : toUlong (env.gup (nrPages ta len0)) < nrPages ta len0
    · have hk := hk1 (by omega)
      have hmul : mul64 (toUlong (env.gup (nrPages ta len0))) PAGE_SIZE
          = toUlong (env.gup (nrPages ta len0)) * PAGE_SIZE := by
        simp only [mul64, PAGE_SIZE]
        simp only [PAGE_SIZE] at hnle
        omega
      have hrl : revLen env ta len0
          = toUlong (env.gup (nrPages ta len0)) * PAGE_SIZE - pageOff ta := by
        simp only [revLen, if_pos hlt, hmul, sub64]
        simp only [PAGE_SIZE] at hpo hnle ⊢
        omega
      have hpc : pinCount env ta len0 = toUlong (env.gup (nrPages ta len0)) := by
        simp only [pinCount, if_pos hlt]
      rw [hrl, hpc]
      simp only [PAGE_SIZE] at hnle ⊢
      omega
    · have hrl : revLen env ta len0 = clampLen ta len0 := by
        simp only [revLen, if_neg hlt]
      have hpc : pinCount env ta len0 = nrPages ta len0 := by
        simp only [pinCount, if_neg hlt]
      rw [hrl, hpc]
      simp only [MAX_RW_COUNT] at hLle
      simp only [PAGE_SIZE] at hwge hpo ⊢
      omega
  have hlen64 : revLen env ta len0 < 2 ^ 64 := by omega
  have hcur : (loopResult env cmd ta len0).cursor
      = min (revLen env ta len0)
        (0 + (pinCount env ta len0 * PAGE_SIZE - pageOff ta)) := by
    simp only [loopResult] at hret ⊢
    exact runLoop_cursor cmd env.copy_fails (revLen env ta len0) hlen64
      (pinCount env ta len0) 0 ⟨0, 0, pageOff ta, [], [], 0, 0⟩ (Nat.zero_le _)
      (pageOff_lt ta) hret
  have hcur2 : (loopResult env cmd ta len0).cursor = revLen env ta len0 := by
    rw [hcur]
    omega
  have hbytes : (loopResult env cmd ta len0).toLocal
        + (loopResult env cmd ta len0).toTarget + 0
      = 0 + 0 + (loopResult env cmd ta len0).cursor ∧
      (loopResult env cmd ta len0).cursor ≤ revLen env ta len0 := by
    simp only [loopResult]
    exact runLoop_bytes cmd env.copy_fails (revLen env ta len0) hlen64
      (pinCount env ta len0) 0 ⟨0, 0, pageOff ta, [], [], 0, 0⟩ rfl
      (Nat.zero_le _)
  constructor
  · omega
  · rw [farfetch_success_path env cmd pid ta len0 hpriv htask hmmf halloc hlock
      herr]
    show (if (loopResult env cmd ta len0).ret ≠ 0
        then (loopResult env cmd ta len0).ret
        else toLong (revLen env ta len0)) = _
    rw [hret]
    simp only [ne_eq, not_true_eq_false, ite_false, reduceIte, toLong]
    rw [if_pos (by omega)]

/-- C7 witness: a fully pinning 5000-byte read starting at in-page offset
100 copies exactly 5000 bytes and returns 5000. -/
theorem C7_success_total_bytes_witness :
    (loopResult envAll Cmd.FAR_READ 100 5000).toLocal
        + (loopResult envAll Cmd.FAR_READ 100 5000).toTarget
      = revLen envAll 100 5000 ∧
    (farfetch envAll Cmd.FAR_READ 1 100 5000).ret
      = (revLen envAll 100 5000 : Int) :=
  C7_success_total_bytes envAll Cmd.FAR_READ 1 100 5000 rfl rfl rfl rfl rfl
    (by decide) (by decide) (by decide) (by decide)

/-- C10: an invalid command on a call that pinned at least one page returns
-EINVAL from the first loop iteration with no byte copied in either
direction, no page mapped, and no page marked dirty. -/
theorem C10_invalid_cmd_no_copy (env : Env) (v : Nat) (pid : Int)
    (ta len0 : Nat) (hpriv : env.euid = 0) (htask : env.task_found = true)
    (hmmf : env.mm_found = true) (halloc : env.alloc_ok = true)
    (hlock : env.lock_ok = true)
    (herr : IS_ERR_VALUE (env.gup (nrPages ta len0)) = false)
    (hk1 : 1 ≤ toUlong (env.gup (nrPages ta len0)))
    (hkn : toUlong (env.gup (nrPages ta len0)) ≤ nrPages ta len0) :
    (farfetch env (Cmd.other v) pid ta len0).ret = -EINVAL ∧
    (farfetch env (Cmd.other v) pid ta len0).tr.toLocal = 0 ∧
    (farfetch env (Cmd.other v) pid ta len0).tr.toTarget = 0 ∧
    (farfetch env (Cmd.other v) pid ta len0).tr.dirty = [] ∧
    (farfetch env (Cmd.other v) pid ta len0).tr.mapped = [] := by
  rw [farfetch_success_path env (Cmd.other v) pid ta len0 hpriv htask hmmf
    halloc hlock herr]
  have hone : 1 ≤ pinCount env ta len0 := by
    simp only [pinCount]
    split <;> omega
  have hloop : loopResult env (Cmd.other v) ta len0
      = ⟨-EINVAL, 0, pageOff ta, [], [], 0, 0⟩ := by
    rw [loopResult, runLoop_other v env.copy_fails (revLen env ta len0)
      (pinCount env ta len0) 0 ⟨0, 0, pageOff ta, [], [], 0, 0⟩ rfl hone]
  rw [hloop]
  norm_num [EINVAL]

/-- C10 witness: a concrete invalid command with one page pinned returns
-EINVAL with nothing copied, mapped or dirtied. -/
theorem C10_invalid_cmd_no_copy_witness :
    (farfetch envAll (Cmd.other 3) 5 0 100).ret = -EINVAL ∧
    (farfetch envAll (Cmd.other 3) 5 0 100).tr.toLocal = 0 ∧
    (farfetch envAll (Cmd.other 3) 5 0 100).tr.toTarget = 0 ∧
    (farfetch envAll (Cmd.other 3) 5 0 100).tr.dirty = [] ∧
    (farfetch envAll (Cmd.other 3) 5 0 100).tr.mapped = [] :=
  C10_invalid_cmd_no_copy envAll 3 5 0 100 rfl rfl rfl rfl rfl (by decide)
    (by decide) (by decide)

end Farfetch
